import Mathlib

/-!
Verification of the flow-log reachability checker (`check_flows.py`).

The file gives a shallow embedding of the two components of the script:

* the topology loader `excel_to_cidr_dict`, which expands each declared
  CIDR into /24 block keys and builds the block-index dictionary, and
* the reachability checker in `main`, which streams flow rows, resolves
  the src/dst /24 keys and evaluates the association/propagation policy.

Machine-level details are mirrored faithfully: Python dict assignment is
last-write-wins, the `continue` of the unmatched-row handler sits inside
the `if show_warnings:` block (so with warnings disabled control falls
through to the policy predicate with stale or unbound locals — modelled
with `Option`-valued locals and a NameError result), and the checker
calls `next()` on a `csv.DictReader` that has already consumed the
header, dropping the first data row.
-/

namespace FlowCheck

/-! ### String helpers modelling the Python primitives used by the script

Python library calls (`str.split` on a one-character separator,
`str.strip`, `str.replace(' ', '')`, decimal `int` parsing) are modelled
directly on the character list of the string, by their documented
semantics. -/

/-- Model of Python `s.split(sep)` for a one-character separator:
splits on every occurrence, keeping empty pieces, so the result always
has one more piece than there are separators. -/
def splitOnChar (sep : Char) : List Char → List (List Char)
  | [] => [[]]
  | c :: cs =>
    let rest := splitOnChar sep cs
    if c = sep then [] :: rest
    else
      match rest with
      | h :: t => (c :: h) :: t
      | [] => [[c]]

/-- `splitOnChar` lifted to `String`. -/
def strSplit (sep : Char) (s : String) : List String :=
  (splitOnChar sep s.data).map (fun l => ⟨l⟩)

/-- Model of Python `str.strip()`: drop whitespace from both ends. -/
def pyStrip (s : String) : String :=
  ⟨((s.data.dropWhile Char.isWhitespace).reverse.dropWhile Char.isWhitespace).reverse⟩

/-- Decimal digit parser: `some` of the value of a nonempty all-digit
string, `none` otherwise (model of the strict octet / prefix-length
parsing done by Python `ipaddress`). -/
def parseNatStr (s : String) : Option Nat :=
  if s.data = [] then none
  else
    s.data.foldl
      (fun acc c =>
        match acc with
        | some n => if c.isDigit then some (n * 10 + (c.toNat - 48)) else none
        | none => none)
      (some 0)

/-! ### Data model -/

/-- The per-row `information` dict built by `excel_to_cidr_dict`
(`check_flows.py` lines 72-79), shared by every /24 key of the row. -/
structure PolicyRecord where
  cidr : String
  account_id : String
  name : String
  vpc_id : String
  associate_with : String
  propagate_to : List String
deriving Repr, DecidableEq

/-- One data row of the topology spreadsheet, with the raw cell values
in the order read by the loader. -/
structure TopoRow where
  cidr : String
  account_id : String
  name : String
  vpc_id : String
  associate_with : String
  propagate_to_str : String
deriving Repr, DecidableEq

/-- One data row of the Athena flow-log CSV, as produced by the
`csv.DictReader` column lookup (`row['src']`, `row['dest']`,
`row['numpackets']`). -/
structure FlowRow where
  src : String
  dst : String
  numpackets : String
deriving Repr, DecidableEq

/-! ### Topology loader (`excel_to_cidr_dict`) -/

/-- Line 59: `cidr = cidr.replace(' ', '')` — remove every space
character (exactly the U+0020 character, not other whitespace). -/
def normalizeCidr (s : String) : String :=
  ⟨s.data.filter (fun c => c ≠ ' ')⟩

/-- Lines 66-69: a truthy (nonempty) `propagate_to` cell is split on
commas and each piece stripped; an empty cell gives the empty list. -/
def parsePropagateTo (s : String) : List String :=
  if s = "" then [] else (strSplit ',' s).map pyStrip

/-- Lines 57-79: the `information` record built from a topology row. -/
def rowRecord (row : TopoRow) : PolicyRecord :=
  { cidr := normalizeCidr row.cidr
    account_id := row.account_id
    name := row.name
    vpc_id := row.vpc_id
    associate_with := row.associate_with
    propagate_to := parsePropagateTo row.propagate_to_str }

/-- Dotted-quad parser: `some` of the 32-bit address value when the
string is four octets, each a digit string of value at most 255. -/
def parseDotted (s : String) : Option Nat :=
  match (strSplit '.' s).mapM parseNatStr with
  | some [o1, o2, o3, o4] =>
    if o1 ≤ 255 ∧ o2 ≤ 255 ∧ o3 ≤ 255 ∧ o4 ≤ 255 then
      some (((o1 * 256 + o2) * 256 + o3) * 256 + o4)
    else none
  | _ => none

/-- Model of `ipaddress.ip_network(cidr)` (strict mode, the default):
`some (address, prefixLength)` for a well-formed `a.b.c.d/p` string with
`p ≤ 32` and no host bits set; `none` when parsing raises `ValueError`. -/
def parseIpNetwork (s : String) : Option (Nat × Nat) :=
  match strSplit '/' s with
  | [addrStr, pStr] =>
    match parseNatStr pStr, parseDotted addrStr with
    | some p, some a =>
      if p ≤ 32 ∧ a % 2 ^ (32 - p) = 0 then some (a, p) else none
    | _, _ => none
  | _ => none

/-- Line 87: the three-octet dotted key of a /24 block start, e.g.
`10.123.4` for address `10.123.4.0`. -/
def octets3 (a : Nat) : String :=
  toString (a / 16777216 % 256) ++ "." ++ toString (a / 65536 % 256) ++ "."
    ++ toString (a / 256 % 256)

/-- The /24 block start addresses produced by
`ip_network(cidr).subnets(new_prefix=24)` for a network of address `a`
and prefix length `p ≤ 24`: the generator yields the `2 ^ (24 - p)`
consecutive /24 subnets. -/
def blockStarts (a p : Nat) : List Nat :=
  (List.range (2 ^ (24 - p))).map (fun k => a + k * 256)

/-- Lines 83-87: the /24 keys inserted for a network `(a, p)`. -/
def expandKeys (a p : Nat) : List String :=
  (blockStarts a p).map octets3

/-- The /24 keys a topology row contributes: none when `ip_network`
raises `ValueError` (bad string or host bits set) and none when
`subnets(new_prefix=24)` raises `ValueError` (prefix longer than 24). -/
def rowKeys (row : TopoRow) : List String :=
  match parseIpNetwork (normalizeCidr row.cidr) with
  | some (a, p) => if p ≤ 24 then expandKeys a p else []
  | none => []

/-- Line 92: the diagnostic printed for a skipped row. -/
def skipMsg (cidr name : String) : String :=
  "Skipping " ++ cidr ++ " (" ++ name ++ "), shorter than /24. "

/-- Python dict assignment `d[k] = v`: overwrite any earlier binding. -/
def dictInsert (d : String → Option PolicyRecord) (k : String) (v : PolicyRecord) :
    String → Option PolicyRecord :=
  fun q => if q = k then some v else d q

/-- Line 89 inside the subnet loop: bind every key to the shared record. -/
def insertKeys (d : String → Option PolicyRecord) (keys : List String) (v : PolicyRecord) :
    String → Option PolicyRecord :=
  keys.foldl (fun d' k => dictInsert d' k v) d

/-- Loader state: the dictionary under construction plus the diagnostics
printed so far (in order). -/
structure TopoState where
  dict : String → Option PolicyRecord
  diags : List String

/-- Lines 56-92: the effect of one topology row on the loader state. -/
def loadRowStep (warn : Bool) (st : TopoState) (row : TopoRow) : TopoState :=
  match parseIpNetwork (normalizeCidr row.cidr) with
  | some (a, p) =>
    if p ≤ 24 then
      { st with dict := insertKeys st.dict (expandKeys a p) (rowRecord row) }
    else
      if warn then
        { st with diags := st.diags ++ [skipMsg (normalizeCidr row.cidr) row.name] }
      else st
  | none =>
    if warn then
      { st with diags := st.diags ++ [skipMsg (normalizeCidr row.cidr) row.name] }
    else st

/-- The loader loop from a given state. -/
def loadFrom (warn : Bool) (st : TopoState) (rows : List TopoRow) : TopoState :=
  rows.foldl (loadRowStep warn) st

/-- `excel_to_cidr_dict`: fold the rows over the empty dictionary. -/
def loadTopology (warn : Bool) (rows : List TopoRow) : TopoState :=
  loadFrom warn { dict := fun _ => none, diags := [] } rows

/-! ### Reachability checker (`main`, lines 124-178)

The Python loop body keeps eight locals (`src_association`, …,
`dst_cidr`) that are assigned inside the `try` block and *survive across
iterations*.  Because the `continue` of the `except KeyError` handler is
nested inside `if show_warnings:`, a lookup miss with warnings disabled
falls through to the predicate at line 155 and reads whatever those
locals currently hold: a value from an earlier row (stale) or nothing at
all (Python `NameError`).  The state therefore carries the locals as
`Option` values, and a step returns `Except` — `.error "NameError"`
models the uncaught exception aborting the run. -/

/-- The checker's loop state: the four counters, the two deduplicating
sets (line 117-118), and the loop-carried locals. -/
structure CheckState where
  total : Nat
  unmatched : Nat
  success : Nat
  failed : Nat
  failedStrings : Finset String
  warningStrings : Finset String
  src_association : Option String
  src_name : Option String
  src_vpc_id : Option String
  src_cidr : Option String
  dst_propagations : Option (List String)
  dst_name : Option String
  dst_vpc_id : Option String
  dst_cidr : Option String
deriving DecidableEq

/-- The state at loop entry (lines 117-130). -/
def initCheckState : CheckState :=
  { total := 0, unmatched := 0, success := 0, failed := 0
    failedStrings := ∅, warningStrings := ∅
    src_association := none, src_name := none, src_vpc_id := none, src_cidr := none
    dst_propagations := none, dst_name := none, dst_vpc_id := none, dst_cidr := none }

/-- Python `repr` of a simple string (as shown when a `KeyError` is
interpolated into an f-string): the text wrapped in single quotes. -/
def pyRepr (s : String) : String :=
  "\x27" ++ s ++ "\x27"

/-- Line 150: `f'Warning: no entry for \x7be\x7d'` — the `KeyError`
argument renders with `repr` quotes. -/
def warnMsg (key : String) : String :=
  "Warning: no entry for " ++ pyRepr key

/-- Python `str` of a list of strings, e.g. `[\x27a\x27, \x27b\x27]`. -/
def pyListStr (l : List String) : String :=
  "[" ++ String.intercalate ", " (l.map pyRepr) ++ "]"

/-- Line 157: the failure message, built from the eight resolved values
only (the packet count is not interpolated). -/
def failMsgStr (sc sn sv dc dn dv assoc : String) (props : List String) : String :=
  sc ++ " (src name: " ++ sn ++ ", src id: " ++ sv ++ ") cannot communicate with "
    ++ dc ++ " (dst name: " ++ dn ++ ", dst id: " ++ dv
    ++ ") , because the src association " ++ assoc
    ++ " is not in the dest propagations " ++ pyListStr props

/-- The failure message as a function of the two resolved records. -/
def failMsgRec (srec drec : PolicyRecord) : String :=
  failMsgStr srec.cidr srec.name srec.vpc_id drec.cidr drec.name drec.vpc_id
    srec.associate_with drec.propagate_to

/-- Lines 138-141: a successful src lookup assigns the four src locals. -/
def bindSrc (st : CheckState) (r : PolicyRecord) : CheckState :=
  { st with src_association := some r.associate_with, src_name := some r.name
            src_vpc_id := some r.vpc_id, src_cidr := some r.cidr }

/-- Lines 143-146: a successful dst lookup assigns the four dst locals. -/
def bindDst (st : CheckState) (r : PolicyRecord) : CheckState :=
  { st with dst_propagations := some r.propagate_to, dst_name := some r.name
            dst_vpc_id := some r.vpc_id, dst_cidr := some r.cidr }

/-- Lines 154-160: the policy predicate, reading the loop-carried
locals.  Reading an unassigned local raises `NameError`. -/
def evalPredicate (st : CheckState) : Except String CheckState :=
  match st.src_association, st.dst_propagations with
  | some assoc, some props =>
    if assoc ∉ props then
      match st.src_cidr, st.src_name, st.src_vpc_id, st.dst_cidr, st.dst_name, st.dst_vpc_id with
      | some sc, some sn, some sv, some dc, some dn, some dv =>
        .ok { st with failed := st.failed + 1
                      failedStrings :=
                        insert (failMsgStr sc sn sv dc dn dv assoc props) st.failedStrings }
      | _, _, _, _, _, _ => .error "NameError"
    else
      .ok { st with success := st.success + 1 }
  | _, _ => .error "NameError"

/-- Lines 147-152: the `except KeyError` handler.  `continue` is inside
`if show_warnings:`, so with warnings disabled control falls through to
the predicate. -/
def onKeyError (warn : Bool) (st : CheckState) (missing : String) : Except String CheckState :=
  let st1 := { st with unmatched := st.unmatched + 1 }
  if warn then
    .ok { st1 with warningStrings := insert (warnMsg missing) st1.warningStrings }
  else
    evalPredicate st1

/-- Lines 131-160: one iteration of the flow-row loop. -/
def rowStep (info : String → Option PolicyRecord) (warn : Bool) (st : CheckState)
    (row : FlowRow) : Except String CheckState :=
  let st1 := { st with total := st.total + 1 }
  match info row.src with
  | none => onKeyError warn st1 row.src
  | some srec =>
    match info row.dst with
    | none => onKeyError warn (bindSrc st1 srec) row.dst
    | some drec => evalPredicate (bindDst (bindSrc st1 srec) drec)

/-- The checker loop over a list of rows. -/
def checkRows (info : String → Option PolicyRecord) (warn : Bool)
    (rows : List FlowRow) : Except String CheckState :=
  rows.foldlM (rowStep info warn) initCheckState

/-- Lines 125-126: `csv.DictReader` consumes the header line to obtain
the field names, and the explicit `next(csvreader, None)` then discards
the *first data row*.  Given the data rows of the file (everything after
the header), the loop therefore sees all but the first. -/
def flowRowsRead (dataRows : List FlowRow) : List FlowRow :=
  dataRows.drop 1

/-- The whole flow-file pass: what `main` runs on the data rows of the
CSV once both files exist. -/
def runCheck (info : String → Option PolicyRecord) (warn : Bool)
    (dataRows : List FlowRow) : Except String CheckState :=
  checkRows info warn (flowRowsRead dataRows)

/-- Projection used to evaluate runs at concrete inputs. -/
def countersOf (r : Except String CheckState) : Option (Nat × Nat × Nat × Nat) :=
  match r with
  | .ok st => some (st.total, st.unmatched, st.success, st.failed)
  | .error _ => none

/-- Whether a run completed without an uncaught exception. -/
def runOk (r : Except String CheckState) : Bool :=
  match r with
  | .ok _ => true
  | .error _ => false

/-! ### The whole program (`main`) -/

/-- Outcome of a `main` invocation: early `sys.exit`, an uncaught
exception, or a completed run (loader diagnostics plus final state). -/
inductive RunResult where
  | exited (msg : String) (code : Nat)
  | crashed (err : String)
  | finished (loaderDiags : List String) (st : CheckState)
deriving DecidableEq

/-- Lines 116-160: the processing done once both paths exist. -/
def runPipeline (warn : Bool) (topo : List TopoRow) (dataRows : List FlowRow) : RunResult :=
  let tstate := loadTopology warn topo
  match checkRows tstate.dict warn (flowRowsRead dataRows) with
  | .ok st => .finished tstate.diags st
  | .error e => .crashed e

/-- Lines 108-160 of `main`: check that the two paths exist (xlsx first,
line 111), exiting with code 1 on the first missing one, then run the
pipeline on the two file contents. -/
def mainRun (fileOk : String → Bool) (xlsx flowcsv : String) (warn : Bool)
    (topo : List TopoRow) (dataRows : List FlowRow) : RunResult :=
  if fileOk xlsx = false then .exited (xlsx ++ " does not exist.") 1
  else if fileOk flowcsv = false then .exited (flowcsv ++ " does not exist.") 1
  else runPipeline warn topo dataRows

/-! ### Pure description of the warnings-enabled checker

With `show_warnings` enabled the `continue` is reached on every lookup
miss, so no iteration ever reads an unassigned local and the loop is a
total function of the state.  `rowStepT` is that function; it is proved
equal to `rowStep info true` below. -/

/-- The warnings-enabled loop body as a total state function. -/
def rowStepT (info : String → Option PolicyRecord) (st : CheckState)
    (row : FlowRow) : CheckState :=
  let st1 := { st with total := st.total + 1 }
  match info row.src with
  | none =>
    { st1 with unmatched := st1.unmatched + 1
               warningStrings := insert (warnMsg row.src) st1.warningStrings }
  | some srec =>
    match info row.dst with
    | none =>
      let st2 := bindSrc st1 srec
      { st2 with unmatched := st2.unmatched + 1
                 warningStrings := insert (warnMsg row.dst) st2.warningStrings }
    | some drec =>
      let st2 := bindDst (bindSrc st1 srec) drec
      if srec.associate_with ∈ drec.propagate_to then
        { st2 with success := st2.success + 1 }
      else
        { st2 with failed := st2.failed + 1
                   failedStrings := insert (failMsgRec srec drec) st2.failedStrings }

/-- The observable output of a run: the four counters and the two
deduplicated message sets (everything `main` prints is a function of
these). -/
structure Summary where
  total : Nat
  unmatched : Nat
  success : Nat
  failed : Nat
  failedStrings : Finset String
  warningStrings : Finset String
deriving DecidableEq

/-- Project the loop state to its observable output. -/
def summaryOf (st : CheckState) : Summary :=
  { total := st.total, unmatched := st.unmatched, success := st.success
    failed := st.failed, failedStrings := st.failedStrings
    warningStrings := st.warningStrings }

/-- What a single row does to the observable output (warnings enabled):
it is counted as unmatched with a warning message, as a success, or as a
failure with a failure message. -/
inductive RowAction where
  | unmatchedAct (msg : String)
  | successAct
  | failAct (msg : String)

/-- Apply a row's action to the observable output. -/
def applyAction (s : Summary) : RowAction → Summary
  | .unmatchedAct m =>
    { s with total := s.total + 1, unmatched := s.unmatched + 1
             warningStrings := insert m s.warningStrings }
  | .successAct =>
    { s with total := s.total + 1, success := s.success + 1 }
  | .failAct m =>
    { s with total := s.total + 1, failed := s.failed + 1
             failedStrings := insert m s.failedStrings }

/-- The action a row takes, determined by the two lookups and the
policy predicate alone. -/
def rowAction (info : String → Option PolicyRecord) (row : FlowRow) : RowAction :=
  match info row.src with
  | none => .unmatchedAct (warnMsg row.src)
  | some srec =>
    match info row.dst with
    | none => .unmatchedAct (warnMsg row.dst)
    | some drec =>
      if srec.associate_with ∈ drec.propagate_to then .successAct
      else .failAct (failMsgRec srec drec)

/-- The observable output of a warnings-enabled run. -/
def summaryRun (info : String → Option PolicyRecord) (rows : List FlowRow) : Summary :=
  rows.foldl (fun s r => applyAction s (rowAction info r)) (summaryOf initCheckState)

/-! ### Definitions modelled from the spec's words (for comparison) -/

/-- Modelled from the spec: membership in "the mathematical partition of
that CIDR into 256-address /24 blocks" — `b` is the start address of a
256-address block that is aligned and contained in the network of
address `a` and prefix length `p`. -/
def isSub24Block (a p b : Nat) : Prop :=
  b % 256 = 0 ∧ a ≤ b ∧ b + 256 ≤ a + 2 ^ (32 - p)

/-- Modelled from the claim's words for C8: normalizing the CIDR string
"by removing internal whitespace" — remove every whitespace character. -/
def claimNormalizeCidr (s : String) : String :=
  ⟨s.data.filter (fun c => ¬ c.isWhitespace)⟩

/-- Modelled from the amended claim: normalizing the CIDR string by
removing every space character (U+0020), internal or surrounding. -/
def amendedNormalizeCidr (s : String) : String :=
  ⟨s.data.filter (fun c => c ≠ ' ')⟩

/-- Modelled from the spec: parse `propagate_to` "as a comma-separated
list whose elements are trimmed of surrounding whitespace, with an empty
`propagate_to` value producing the empty list". -/
def specTagList (s : String) : List String :=
  if s = "" then [] else (strSplit ',' s).map pyStrip

/-- The observable output of a run, `none` when the run aborted with an
uncaught exception. -/
def summaryOfRun (r : Except String CheckState) : Option Summary :=
  match r with
  | .ok st => some (summaryOf st)
  | .error _ => none

/-- The key the `KeyError` of lines 137-147 carries: the src key when
the src lookup misses (it runs first, line 138), otherwise the dst key. -/
def firstMissingKey (info : String → Option PolicyRecord) (row : FlowRow) : String :=
  match info row.src with
  | none => row.src
  | some _ => row.dst

/-! ### Concrete fixtures used to evaluate the embedding -/

/-- A record routing to itself: association `A`, propagations `[A]`. -/
def recA : PolicyRecord :=
  { cidr := "10.0.0.0/24", account_id := "1", name := "VPC-A", vpc_id := "vpc-a"
    associate_with := "A", propagate_to := ["A"] }

/-- Spoke record whose association is not accepted by `recC`. -/
def recB : PolicyRecord :=
  { cidr := "10.1.0.0/24", account_id := "2", name := "VPC-B", vpc_id := "vpc-b"
    associate_with := "Spoke", propagate_to := ["Core"] }

/-- Core record that only accepts association `Core`. -/
def recC : PolicyRecord :=
  { cidr := "10.2.0.0/24", account_id := "3", name := "VPC-C", vpc_id := "vpc-c"
    associate_with := "Isolated", propagate_to := ["Core"] }

/-- Index with the single block `10.0.0`. -/
def infoA : String → Option PolicyRecord :=
  fun k => if k = "10.0.0" then some recA else none

/-- Index with blocks `10.1.0` and `10.2.0`. -/
def infoB : String → Option PolicyRecord :=
  fun k => if k = "10.1.0" then some recB else if k = "10.2.0" then some recC else none

/-- Flow row whose src and dst both resolve (to `recA`). -/
def flowA : FlowRow := { src := "10.0.0", dst := "10.0.0", numpackets := "5" }

/-- Flow row whose dst key `10.0.9` is absent from `infoA`. -/
def flowB : FlowRow := { src := "10.0.0", dst := "10.0.9", numpackets := "7" }

/-- Flow row whose src key `10.0.9` is absent from `infoA`. -/
def flowC : FlowRow := { src := "10.0.9", dst := "10.0.0", numpackets := "1" }

/-- Failing flow row under `infoB` (association `Spoke` not propagated). -/
def flowF : FlowRow := { src := "10.1.0", dst := "10.2.0", numpackets := "3" }

/-- The same failing pair as `flowF` with a different packet count. -/
def flowF2 : FlowRow := { src := "10.1.0", dst := "10.2.0", numpackets := "9" }

/-- Topology row declaring `10.0.0.0/23` (two /24 blocks). -/
def topoRow0 : TopoRow :=
  { cidr := "10.0.0.0/23", account_id := "111111111111", name := "Core", vpc_id := "vpc-1"
    associate_with := "Isolated", propagate_to_str := "Infrastructure,Shared" }

/-- Topology row declaring `10.0.0.0/25` (finer than /24). -/
def topoRow25 : TopoRow :=
  { cidr := "10.0.0.0/25", account_id := "222222222222", name := "Fine", vpc_id := "vpc-2"
    associate_with := "Spoke", propagate_to_str := "" }

/-- First of two colliding topology rows for the block `10.0.0`. -/
def topoRowX : TopoRow :=
  { cidr := "10.0.0.0/24", account_id := "3", name := "First", vpc_id := "vpc-x"
    associate_with := "A", propagate_to_str := "A" }

/-- Second of two colliding topology rows for the block `10.0.0`. -/
def topoRowY : TopoRow :=
  { cidr := "10.0.0.0/24", account_id := "4", name := "Second", vpc_id := "vpc-y"
    associate_with := "B", propagate_to_str := "B" }

/-! ### Helper lemmas about the loader -/

/-- Folding `dictInsert` of a fixed record over a key list binds exactly
the listed keys to that record. -/
theorem insertKeys_lookup (v : PolicyRecord) (k : String) :
    ∀ (keys : List String) (d : String → Option PolicyRecord),
      insertKeys d keys v k = if k ∈ keys then some v else d k := by
  intro keys
  induction keys with
  | nil => intro d; simp [insertKeys]
  | cons h t ih =>
    intro d
    have step : insertKeys d (h :: t) v = insertKeys (dictInsert d h v) t v := rfl
    rw [step, ih]
    by_cases hk : k ∈ t
    · simp [hk]
    · by_cases he : k = h <;> simp [hk, he, dictInsert]

/-- One loader step binds exactly the row's keys, leaving every other
key unchanged. -/
theorem loadRowStep_dict (warn : Bool) (st : TopoState) (row : TopoRow) (k : String) :
    (loadRowStep warn st row).dict k =
      if k ∈ rowKeys row then some (rowRecord row) else st.dict k := by
  unfold loadRowStep rowKeys
  cases hp : parseIpNetwork (normalizeCidr row.cidr) with
  | none => cases warn <;> simp
  | some ap =>
    obtain ⟨a, p⟩ := ap
    by_cases h24 : p ≤ 24
    · simp [h24, insertKeys_lookup]
    · cases warn <;> simp [h24]

/-- Rows none of which produce the key `k` leave its binding unchanged. -/
theorem loadFrom_dict_stable (warn : Bool) (k : String) :
    ∀ (rows : List TopoRow) (st : TopoState), (∀ r ∈ rows, k ∉ rowKeys r) →
      (loadFrom warn st rows).dict k = st.dict k := by
  intro rows
  induction rows with
  | nil => intro st _; rfl
  | cons r t ih =>
    intro st hno
    have h1 : k ∉ rowKeys r := hno r (by simp)
    have h2 := ih (loadRowStep warn st r) (fun r' hr' => hno r' (by simp [hr']))
    have step : loadFrom warn st (r :: t) = loadFrom warn (loadRowStep warn st r) t := rfl
    rw [step, h2, loadRowStep_dict]
    simp [h1]

/-- A parsed network is aligned: `parseIpNetwork` succeeds only when the
prefix length is at most 32 and no host bit is set (strict parsing). -/
theorem parseIpNetwork_align {s : String} {a p : Nat}
    (h : parseIpNetwork s = some (a, p)) : p ≤ 32 ∧ a % 2 ^ (32 - p) = 0 := by
  unfold parseIpNetwork at h
  split at h
  · split at h
    · split at h
      · next hcond =>
        obtain ⟨h1, h2⟩ := Prod.mk.injEq _ _ _ _ ▸ Option.some.inj h
        subst h1; subst h2
        exact hcond
      · exact absurd h (by simp)
    · exact absurd h (by simp)
  · exact absurd h (by simp)

/-- The expanded block starts are exactly the aligned 256-address blocks
contained in the network. -/
theorem mem_blockStarts_iff {a p : Nat} (h24 : p ≤ 24) (ha : a % 2 ^ (32 - p) = 0)
    (b : Nat) : b ∈ blockStarts a p ↔ isSub24Block a p b := by
  have hM : 2 ^ (32 - p) = 2 ^ (24 - p) * 256 := by
    rw [show 32 - p = (24 - p) + 8 by omega, pow_add]
    norm_num
  obtain ⟨q, hq⟩ : 256 ∣ a := by
    refine dvd_trans ⟨2 ^ (24 - p), by omega⟩ (Nat.dvd_of_mod_eq_zero ha)
  unfold blockStarts isSub24Block
  rw [hM] at ha ⊢
  constructor
  · intro hb
    simp only [List.mem_map, List.mem_range] at hb
    obtain ⟨k, hk, rfl⟩ := hb
    omega
  · intro hb
    simp only [List.mem_map, List.mem_range]
    exact ⟨(b - a) / 256, by omega, by omega⟩

/-! ### Helper lemmas about the checker -/

/-- With warnings enabled every iteration completes and equals the pure
step: every lookup miss reaches the `continue`. -/
theorem rowStep_true (info : String → Option PolicyRecord) (st : CheckState)
    (row : FlowRow) : rowStep info true st row = .ok (rowStepT info st row) := by
  unfold rowStep rowStepT onKeyError
  cases hs : info row.src with
  | none => simp
  | some srec =>
    cases hd : info row.dst with
    | none => simp
    | some drec =>
      by_cases hm : srec.associate_with ∈ drec.propagate_to <;>
        simp [evalPredicate, bindSrc, bindDst, hm, failMsgRec]

/-- Projected through `summaryOf`, the pure step is the row's action. -/
theorem summaryOf_rowStepT (info : String → Option PolicyRecord) (st : CheckState)
    (row : FlowRow) :
    summaryOf (rowStepT info st row) = applyAction (summaryOf st) (rowAction info row) := by
  unfold rowStepT rowAction
  cases hs : info row.src with
  | none => simp [applyAction, summaryOf]
  | some srec =>
    cases hd : info row.dst with
    | none => simp [applyAction, summaryOf, bindSrc]
    | some drec =>
      by_cases hm : srec.associate_with ∈ drec.propagate_to <;>
        simp [applyAction, summaryOf, bindSrc, bindDst, hm]

/-- The warnings-enabled loop is the pure fold. -/
theorem foldlM_rowStep_true (info : String → Option PolicyRecord) :
    ∀ (rows : List FlowRow) (st : CheckState),
      List.foldlM (rowStep info true) st rows = .ok (rows.foldl (rowStepT info) st) := by
  intro rows
  induction rows with
  | nil => intro st; rfl
  | cons r t ih =>
    intro st
    calc List.foldlM (rowStep info true) st (r :: t)
        = rowStep info true st r >>= fun st' => List.foldlM (rowStep info true) st' t := by
          simp [List.foldlM_cons]
      _ = List.foldlM (rowStep info true) (rowStepT info st r) t := by
          rw [rowStep_true]; rfl
      _ = .ok ((r :: t).foldl (rowStepT info) st) := by rw [ih]; rfl

/-- Summary of the pure fold, as a fold of row actions. -/
theorem summaryOf_foldl (info : String → Option PolicyRecord) :
    ∀ (rows : List FlowRow) (st : CheckState),
      summaryOf (rows.foldl (rowStepT info) st)
        = rows.foldl (fun s r => applyAction s (rowAction info r)) (summaryOf st) := by
  intro rows
  induction rows with
  | nil => intro st; rfl
  | cons r t ih =>
    intro st
    have step : (r :: t).foldl (rowStepT info) st = t.foldl (rowStepT info) (rowStepT info st r) := rfl
    rw [step, ih, summaryOf_rowStepT]
    rfl

/-- Row actions applied to a summary commute with one another: counters
add and message-set insertions commute. -/
theorem applyAction_comm (s : Summary) (a1 a2 : RowAction) :
    applyAction (applyAction s a1) a2 = applyAction (applyAction s a2) a1 := by
  cases a1 <;> cases a2 <;>
    simp [applyAction, Finset.Insert.comm]

/-! ### Claim theorems -/

/-- C1: the claim says that a flow row with a missed lookup increments
`unmatched` only and never contributes to `success` or `failed`,
regardless of whether warnings are enabled.  The code violates this:
the `continue` sits inside `if show_warnings:`, so with warnings off the
unmatched row falls through to the predicate with stale locals.  Here,
under the index `infoA`, the rows `[flowA, flowB]` (the second row's dst
key is unmatched) yield `total = 2, unmatched = 1, success = 2,
failed = 0`: the unmatched second row is *also* counted as a success,
where the claim demands `success = 1`. -/
theorem C1_unmatched_row_also_counted :
    countersOf (checkRows infoA false [flowA, flowB]) = some (2, 1, 2, 0) := by
  decide

/-- C2 counterexample: with warnings disabled the output is *not*
invariant under permutation of the rows.  Under `infoA`, processing
`[flowC, flowA]` aborts with a `NameError` (the first row misses its src
key and falls through to the predicate with unassigned locals), while
the permuted `[flowA, flowC]` completes (the miss row reuses the first
row's stale locals). -/
theorem C2_not_order_invariant :
    checkRows infoA false [flowC, flowA] ≠ checkRows infoA false [flowA, flowC] := by
  intro h
  have h1 : runOk (checkRows infoA false [flowC, flowA]) = false := by decide
  have h2 : runOk (checkRows infoA false [flowA, flowC]) = true := by decide
  rw [h] at h1
  rw [h1] at h2
  exact Bool.noConfusion h2

/-- C2 (amended): when warnings are enabled, the checker's observable
output — the counters `total`, `unmatched`, `success`, `failed` and the
two deduplicated message sets — is the same for every permutation of the
flow rows. -/
theorem C2_perm_invariant_with_warnings (info : String → Option PolicyRecord)
    (rows rows' : List FlowRow) (hperm : rows.Perm rows') :
    summaryOfRun (checkRows info true rows) = summaryOfRun (checkRows info true rows') := by
  unfold checkRows
  rw [foldlM_rowStep_true, foldlM_rowStep_true]
  show some (summaryOf (List.foldl (rowStepT info) initCheckState rows))
    = some (summaryOf (List.foldl (rowStepT info) initCheckState rows'))
  rw [summaryOf_foldl, summaryOf_foldl]
  exact congrArg some
    (hperm.foldl_eq' (fun x _ y _ z => applyAction_comm z (rowAction info x) (rowAction info y)) _)

/-- Witness for C2 (amended) at a concrete permutation. -/
theorem C2_perm_invariant_with_warnings_witness :
    summaryOfRun (checkRows infoA true [flowA, flowB])
      = summaryOfRun (checkRows infoA true [flowB, flowA]) :=
  C2_perm_invariant_with_warnings infoA [flowA, flowB] [flowB, flowA] (by decide)

/-- C3: the claim says exactly the header row is skipped and every data
row is processed, so `total` equals the number of data rows.  The code
violates this: `csv.DictReader` already consumes the header line, and
the explicit `next(csvreader, None)` then discards the first *data* row.
On a file with one data row the checker processes nothing: `total = 0`
where the claim demands `total = 1`. -/
theorem C3_first_data_row_dropped :
    countersOf (runCheck infoA true [flowA]) = some (0, 0, 0, 0)
      ∧ [flowA].length = 1 := by
  refine ⟨by decide, rfl⟩

/-- C4: for every declared topology CIDR with prefix length ≤ 24, the
expanded /24 block starts are exactly the mathematical partition of the
CIDR into 256-address blocks, the inserted keys are their three-octet
dotted prefixes, and in the index built from the row each such key maps
to the record carrying the row's fields. -/
theorem C4_expansion_is_partition (row : TopoRow) (a p : Nat)
    (hp : parseIpNetwork (normalizeCidr row.cidr) = some (a, p)) (h24 : p ≤ 24) :
    (∀ b : Nat, b ∈ blockStarts a p ↔ isSub24Block a p b)
    ∧ rowKeys row = (blockStarts a p).map octets3
    ∧ ∀ warn : Bool, ∀ k ∈ rowKeys row,
        (loadTopology warn [row]).dict k = some (rowRecord row) := by
  have hal := parseIpNetwork_align hp
  refine ⟨fun b => mem_blockStarts_iff h24 hal.2 b, ?_, ?_⟩
  · unfold rowKeys
    rw [hp]
    simp [h24, expandKeys]
  · intro warn k hk
    have hone : loadTopology warn [row]
        = loadRowStep warn { dict := fun _ => none, diags := [] } row := rfl
    rw [hone, loadRowStep_dict]
    simp [hk]

/-- Witness for C4 on the declared CIDR `10.0.0.0/23`. -/
theorem C4_expansion_is_partition_witness :
    (∀ b : Nat, b ∈ blockStarts 167772160 23 ↔ isSub24Block 167772160 23 b)
    ∧ rowKeys topoRow0 = (blockStarts 167772160 23).map octets3
    ∧ ∀ warn : Bool, ∀ k ∈ rowKeys topoRow0,
        (loadTopology warn [topoRow0]).dict k = some (rowRecord topoRow0) :=
  C4_expansion_is_partition topoRow0 167772160 23 (by decide) (by decide)

/-- C5: a declared CIDR with prefix length > 24 contributes no key at
all, leaves every dictionary binding unchanged, appends (when warnings
are enabled) exactly one diagnostic — the `skipMsg` line naming the
CIDR and the row's name — does nothing at all when warnings are
disabled, and the loader continues with the remaining rows. -/
theorem C5_finer_than_24_skipped (row : TopoRow) (a p : Nat)
    (hp : parseIpNetwork (normalizeCidr row.cidr) = some (a, p)) (hgt : 24 < p) :
    rowKeys row = []
    ∧ (∀ st : TopoState, ∀ k, (loadRowStep true st row).dict k = st.dict k)
    ∧ (∀ st : TopoState, (loadRowStep true st row).diags
        = st.diags ++ [skipMsg (normalizeCidr row.cidr) row.name])
    ∧ (∀ st : TopoState, loadRowStep false st row = st)
    ∧ (∀ (warn : Bool) (st : TopoState) (rest : List TopoRow),
        loadFrom warn st (row :: rest) = loadFrom warn (loadRowStep warn st row) rest) := by
  have hn : ¬ p ≤ 24 := by omega
  refine ⟨?_, ?_, ?_, ?_, fun warn st rest => rfl⟩
  · unfold rowKeys
    rw [hp]
    simp [hn]
  · intro st k
    unfold loadRowStep
    rw [hp]
    simp [hn]
  · intro st
    unfold loadRowStep
    rw [hp]
    simp [hn]
  · intro st
    unfold loadRowStep
    rw [hp]
    simp [hn]

/-- Witness for C5 on the declared CIDR `10.0.0.0/25`. -/
theorem C5_finer_than_24_skipped_witness :
    rowKeys topoRow25 = []
    ∧ (∀ st : TopoState, ∀ k, (loadRowStep true st topoRow25).dict k = st.dict k)
    ∧ (∀ st : TopoState, (loadRowStep true st topoRow25).diags
        = st.diags ++ [skipMsg (normalizeCidr topoRow25.cidr) topoRow25.name])
    ∧ (∀ st : TopoState, loadRowStep false st topoRow25 = st)
    ∧ (∀ (warn : Bool) (st : TopoState) (rest : List TopoRow),
        loadFrom warn st (topoRow25 :: rest) = loadFrom warn (loadRowStep warn st topoRow25) rest) :=
  C5_finer_than_24_skipped topoRow25 167772160 25 (by decide) (by decide)

/-- C6: when two topology rows expand to the same /24 key, the finished
index binds that key to the record of the later row — dict assignment
silently overwrites on collision, and no later row touching the key
means the later row's binding survives to the end of the load. -/
theorem C6_last_write_wins (warn : Bool) (pre suf : List TopoRow) (r2 : TopoRow)
    (k : String) (_hcol : ∃ r1 ∈ pre, k ∈ rowKeys r1) (hk2 : k ∈ rowKeys r2)
    (hsuf : ∀ r ∈ suf, k ∉ rowKeys r) :
    (loadTopology warn (pre ++ r2 :: suf)).dict k = some (rowRecord r2) := by
  unfold loadTopology
  have hsplit : loadFrom warn { dict := fun _ => none, diags := [] } (pre ++ r2 :: suf)
      = loadFrom warn
          (loadRowStep warn (loadFrom warn { dict := fun _ => none, diags := [] } pre) r2)
          suf := by
    unfold loadFrom
    rw [List.foldl_append]
    rfl
  rw [hsplit, loadFrom_dict_stable warn k suf _ hsuf, loadRowStep_dict]
  simp [hk2]

/-- Witness for C6: two rows both declaring `10.0.0.0/24`; the key
`10.0.0` ends bound to the second row's record. -/
theorem C6_last_write_wins_witness :
    (loadTopology true ([topoRowX] ++ topoRowY :: [])).dict "10.0.0"
      = some (rowRecord topoRowY) :=
  C6_last_write_wins true [topoRowX] [] topoRowY "10.0.0"
    ⟨topoRowX, by decide, by decide⟩ (by decide) (by decide)

/-- Evaluating the predicate right after both bindings is total and
depends only on the two records. -/
theorem evalPredicate_bound (st : CheckState) (srec drec : PolicyRecord) :
    evalPredicate (bindDst (bindSrc st srec) drec)
      = .ok (if srec.associate_with ∈ drec.propagate_to
          then { bindDst (bindSrc st srec) drec with success := st.success + 1 }
          else { bindDst (bindSrc st srec) drec with
                   failed := st.failed + 1
                   failedStrings := insert (failMsgRec srec drec) st.failedStrings }) := by
  by_cases hm : srec.associate_with ∈ drec.propagate_to <;>
    simp [evalPredicate, bindSrc, bindDst, hm, failMsgRec]

/-- C7: a flow row whose src and dst keys both resolve increments
`success` exactly when the source association is among the destination
propagations, and otherwise increments `failed` and inserts the failure
message, which is a function `failMsgRec` of the two resolved records
only (not of the packet count); a second row with the same keys and any
packet count increments `failed` again while the deduplicated message
set stays a single message. -/
theorem C7_policy_predicate (info : String → Option PolicyRecord) (warn : Bool)
    (st : CheckState) (row row2 : FlowRow) (srec drec : PolicyRecord)
    (hs : info row.src = some srec) (hd : info row.dst = some drec) :
    ∃ st1, rowStep info warn st row = .ok st1
      ∧ st1.total = st.total + 1
      ∧ st1.unmatched = st.unmatched
      ∧ st1.warningStrings = st.warningStrings
      ∧ (srec.associate_with ∈ drec.propagate_to →
          st1.success = st.success + 1 ∧ st1.failed = st.failed
            ∧ st1.failedStrings = st.failedStrings)
      ∧ (srec.associate_with ∉ drec.propagate_to →
          st1.failed = st.failed + 1 ∧ st1.success = st.success
            ∧ st1.failedStrings = insert (failMsgRec srec drec) st.failedStrings)
      ∧ (row2.src = row.src → row2.dst = row.dst →
          srec.associate_with ∉ drec.propagate_to →
          ∃ st2, rowStep info warn st1 row2 = .ok st2
            ∧ st2.failed = st.failed + 2
            ∧ st2.failedStrings = insert (failMsgRec srec drec) st.failedStrings) := by
  have hstep : ∀ s : CheckState, rowStep info warn s row
      = evalPredicate (bindDst (bindSrc { s with total := s.total + 1 } srec) drec) := by
    intro s
    simp [rowStep, hs, hd]
  by_cases hm : srec.associate_with ∈ drec.propagate_to
  · refine ⟨{ bindDst (bindSrc { st with total := st.total + 1 } srec) drec with
        success := st.success + 1 }, ?_, ?_, ?_, ?_, ?_, ?_, ?_⟩
    · rw [hstep, evalPredicate_bound, if_pos hm]
    · simp [bindSrc, bindDst]
    · simp [bindSrc, bindDst]
    · simp [bindSrc, bindDst]
    · intro _
      exact ⟨rfl, by simp [bindSrc, bindDst], by simp [bindSrc, bindDst]⟩
    · intro hneg
      exact absurd hm hneg
    · intro _ _ hneg
      exact absurd hm hneg
  · refine ⟨{ bindDst (bindSrc { st with total := st.total + 1 } srec) drec with
        failed := st.failed + 1
        failedStrings := insert (failMsgRec srec drec) st.failedStrings }, ?_, ?_, ?_, ?_, ?_, ?_, ?_⟩
    · rw [hstep, evalPredicate_bound, if_neg hm]
    · simp [bindSrc, bindDst]
    · simp [bindSrc, bindDst]
    · simp [bindSrc, bindDst]
    · intro hpos
      exact absurd hpos hm
    · intro _
      exact ⟨rfl, by simp [bindSrc, bindDst], rfl⟩
    · intro hsrc2 hdst2 _
      have hs2 : info row2.src = some srec := by rw [hsrc2]; exact hs
      have hd2 : info row2.dst = some drec := by rw [hdst2]; exact hd
      have hstep2 : ∀ s : CheckState, rowStep info warn s row2
          = evalPredicate (bindDst (bindSrc { s with total := s.total + 1 } srec) drec) := by
        intro s
        simp [rowStep, hs2, hd2]
      refine ⟨_, by rw [hstep2, evalPredicate_bound, if_neg hm], ?_, ?_⟩
      · simp [bindSrc, bindDst]
      · simp [bindSrc, bindDst, Finset.insert_idem]

/-- Witness for C7: the failing pair `flowF`, repeated as `flowF2` with
a different packet count, under the index `infoB`. -/
theorem C7_policy_predicate_witness :
    ∃ st1, rowStep infoB false initCheckState flowF = .ok st1
      ∧ st1.total = initCheckState.total + 1
      ∧ st1.unmatched = initCheckState.unmatched
      ∧ st1.warningStrings = initCheckState.warningStrings
      ∧ (recB.associate_with ∈ recC.propagate_to →
          st1.success = initCheckState.success + 1 ∧ st1.failed = initCheckState.failed
            ∧ st1.failedStrings = initCheckState.failedStrings)
      ∧ (recB.associate_with ∉ recC.propagate_to →
          st1.failed = initCheckState.failed + 1 ∧ st1.success = initCheckState.success
            ∧ st1.failedStrings = insert (failMsgRec recB recC) initCheckState.failedStrings)
      ∧ (flowF2.src = flowF.src → flowF2.dst = flowF.dst →
          recB.associate_with ∉ recC.propagate_to →
          ∃ st2, rowStep infoB false st1 flowF2 = .ok st2
            ∧ st2.failed = initCheckState.failed + 2
            ∧ st2.failedStrings = insert (failMsgRec recB recC) initCheckState.failedStrings) :=
  C7_policy_predicate infoB false initCheckState flowF flowF2 recB recC (by decide) (by decide)

/-- C8 counterexample: the claim says the loader removes internal
*whitespace* from the CIDR string, but `cidr.replace(' ', '')` removes
only space characters — a tab survives normalization, so on the input
`10.0.0.0/<TAB>24` the code's normalization differs from
whitespace-removal. -/
theorem C8_whitespace_counterexample :
    normalizeCidr "10.0.0.0/\t24" ≠ claimNormalizeCidr "10.0.0.0/\t24" := by
  decide

/-- C8 (amended): the loader normalizes the CIDR string by removing
every space character (U+0020, internal or surrounding) before parsing,
and parses `propagate_to` as a comma-separated list of
whitespace-trimmed tags, an empty value producing the empty list. -/
theorem C8_normalization_amended :
    (∀ s : String, normalizeCidr s = amendedNormalizeCidr s)
    ∧ parsePropagateTo "" = []
    ∧ (∀ s : String, parsePropagateTo s = specTagList s) :=
  ⟨fun _ => rfl, rfl, fun _ => rfl⟩

/-- C9: if the topology path does not name an existing file, or it does
but the flow-log path does not, `main` prints `<path> does not exist.`
for the first missing path and exits with code 1, whatever the file
contents would have been — no index is built and no flow row processed;
when both paths exist it proceeds to run the pipeline on both inputs. -/
theorem C9_missing_input_exits (fileOk : String → Bool) (xlsx flow : String) (warn : Bool)
    (topo : List TopoRow) (dataRows : List FlowRow) :
    (fileOk xlsx = false →
      ∀ (topo2 : List TopoRow) (dataRows2 : List FlowRow),
        mainRun fileOk xlsx flow warn topo2 dataRows2
          = .exited (xlsx ++ " does not exist.") 1)
    ∧ (fileOk xlsx = true → fileOk flow = false →
      ∀ (topo2 : List TopoRow) (dataRows2 : List FlowRow),
        mainRun fileOk xlsx flow warn topo2 dataRows2
          = .exited (flow ++ " does not exist.") 1)
    ∧ (fileOk xlsx = true → fileOk flow = true →
        mainRun fileOk xlsx flow warn topo dataRows = runPipeline warn topo dataRows) := by
  refine ⟨?_, ?_, ?_⟩ <;> intros <;> simp_all [mainRun]

/-- Witness for C9: a world where no file exists exits naming the xlsx
path, with exit code 1. -/
theorem C9_missing_input_exits_witness :
    mainRun (fun _ => false) "topo.xlsx" "flow.csv" true [] []
      = .exited ("topo.xlsx" ++ " does not exist.") 1 :=
  (C9_missing_input_exits (fun _ => false) "topo.xlsx" "flow.csv" true [] []).1 rfl [] []

/-- C10: with warnings enabled, a flow row with a lookup miss increments
`unmatched`, inserts into the warning set exactly the one message naming
the first missing key (the src key if the src lookup misses, otherwise
the dst key), and skips the predicate: `success`, `failed` and the
failure set are unchanged. -/
theorem C10_warned_unmatched_row (info : String → Option PolicyRecord)
    (st : CheckState) (row : FlowRow)
    (hmiss : info row.src = none ∨ info row.dst = none) :
    ∃ st1, rowStep info true st row = .ok st1
      ∧ st1.total = st.total + 1
      ∧ st1.unmatched = st.unmatched + 1
      ∧ st1.success = st.success
      ∧ st1.failed = st.failed
      ∧ st1.failedStrings = st.failedStrings
      ∧ st1.warningStrings = insert (warnMsg (firstMissingKey info row)) st.warningStrings := by
  cases hsrc : info row.src with
  | none =>
    refine ⟨{ st with
        total := st.total + 1
        unmatched := st.unmatched + 1
        warningStrings := insert (warnMsg row.src) st.warningStrings },
      ?_, rfl, rfl, rfl, rfl, rfl, ?_⟩
    · simp [rowStep, onKeyError, hsrc]
    · simp [firstMissingKey, hsrc]
  | some srec =>
    have hdst : info row.dst = none := by
      rcases hmiss with h | h
      · rw [hsrc] at h
        exact Option.noConfusion h
      · exact h
    refine ⟨{ bindSrc { st with total := st.total + 1 } srec with
        unmatched := st.unmatched + 1
        warningStrings := insert (warnMsg row.dst) st.warningStrings },
      ?_, ?_, rfl, ?_, ?_, ?_, ?_⟩
    · simp [rowStep, onKeyError, hsrc, hdst, bindSrc]
    · simp [bindSrc]
    · simp [bindSrc]
    · simp [bindSrc]
    · simp [bindSrc]
    · simp [firstMissingKey, hsrc, bindSrc]

/-- Witness for C10: the row `flowB`, whose dst key misses `infoA`. -/
theorem C10_warned_unmatched_row_witness :
    ∃ st1, rowStep infoA true initCheckState flowB = .ok st1
      ∧ st1.total = initCheckState.total + 1
      ∧ st1.unmatched = initCheckState.unmatched + 1
      ∧ st1.success = initCheckState.success
      ∧ st1.failed = initCheckState.failed
      ∧ st1.failedStrings = initCheckState.failedStrings
      ∧ st1.warningStrings
          = insert (warnMsg (firstMissingKey infoA flowB)) initCheckState.warningStrings :=
  C10_warned_unmatched_row infoA initCheckState flowB (Or.inr (by decide))

end FlowCheck
